import Mathlib

/-!
Verification of the py2store transformation-and-composition layer
(src/py2store/mixins.py and src/py2store/key_mappers/paths.py).

The embedding models Python exception values as an inductive type, a dict
backend as an insertion-ordered association list, and each mixin class as a
layer over a record of store operations.  Python method resolution is
modelled explicitly: a call through self dispatches to the fully composed
method stack, while a call through super dispatches to the remainder of the
stack below the current layer.
-/

namespace Py2Store

/-- Python exception values raised by the code under verification.
Modelled from the spec: the exception class hierarchy of py2store.errors is
not under src; per the spec (section 7) the error kinds are distinct,
separately catchable conditions, so each kind is a separate constructor.
NotFound is KeyError: mixins.py line 195 catches KeyError to mean an absent
key, and paths.py line 78 raises KeyError for an invalid key.  Message
payloads are kept only where a claim depends on them. -/
inductive PyErr where
  | keyError (msg : String)
  | writesNotAllowed
  | deletionsNotAllowed
  | overWritesNotAllowed (msg : String)
  | typeError (msg : String)
  | unicodeDecodeError
deriving DecidableEq

/-- What an `except KeyError` handler catches (mixins.py line 195). -/
def caughtByExceptKeyError : PyErr → Bool
  | .keyError _ => true
  | _ => false

/-! ## Prefix relativization (paths.py lines 48-56, mixins.py lines 109-117)

Keys are any objects with length, concatenation and slicing; they are
modelled as lists.  The cached attribute _prefix_length is len(_prefix). -/

/-- Translation of PrefixRelativizationMixin._id_of_key: return self._prefix + k.
The first argument is the _prefix attribute. -/
def id_of_key (p k : List α) : List α := p ++ k

/-- Translation of PrefixRelativizationMixin._key_of_id: return _id[self._prefix_length:],
where _prefix_length is len(_prefix).  Python slicing from index n is drop n
(yielding the empty sequence when n exceeds the length). -/
def key_of_id (p i : List α) : List α := i.drop p.length

/-- C1: for every prefix p and every interface key k (any type supporting
length, concatenation and slicing), key_of_id (id_of_key k) = k: prepending
the prefix and then slicing off the first len(p) units returns the original
key. -/
theorem C1_key_transform_round_trip (p k : List α) :
    key_of_id p (id_of_key p k) = k := by
  simp [key_of_id, id_of_key]

/-- C2: id_of_key produces an identifier that starts with exactly the prefix
p (its first len(p) units are p and what follows them is k), and key_of_id
removes exactly len(p) leading units from any identifier i (not only those
starting with p): the result is i with its first len(p) units removed, and
re-attaching those first len(p) units restores i. -/
theorem C2_identifier_starts_with_exact_prefix (p k i : List α) :
    (id_of_key p k).take p.length = p
      ∧ (id_of_key p k).drop p.length = k
      ∧ key_of_id p i = i.drop p.length
      ∧ i.take p.length ++ key_of_id p i = i := by
  refine ⟨?_, ?_, rfl, ?_⟩
  · simp [id_of_key]
  · simp [id_of_key]
  · simp [key_of_id]

/-! ## The dict backend

The doctests of mixins.py layer the mixins over a plain Python dict; a dict
is an insertion-ordered association list.  KeyError carries the missing key. -/

/-- Backend state: insertion-ordered key/value pairs without duplicate keys
on the operations below. -/
abbrev Dict := List (String × String)

/-- Value stored for a key, if any (first match). -/
def dictLookup : Dict → String → Option String
  | [], _ => none
  | (k0, v0) :: rest, k => if k0 == k then some v0 else dictLookup rest k

/-- Python `k in d`. -/
def dictContains (d : Dict) (k : String) : Bool :=
  (dictLookup d k).isSome

/-- Python `d[k]`: the value, or KeyError(k) when absent. -/
def dictGet (d : Dict) (k : String) : Except PyErr String :=
  match dictLookup d k with
  | some v => .ok v
  | none => .error (.keyError k)

/-- Python `d[k] = v`: update in place when the key exists (keeping its
position), append otherwise. -/
def dictSet : Dict → String → String → Dict
  | [], k, v => [(k, v)]
  | (k0, v0) :: rest, k, v =>
      if k0 == k then (k0, v) :: rest else (k0, v0) :: dictSet rest k v

/-- Python `del d[k]`: remove the entry, or KeyError(k) when absent. -/
def dictDel : Dict → String → Except PyErr Dict
  | [], k => .error (.keyError k)
  | (k0, v0) :: rest, k =>
      if k0 == k then .ok rest
      else match dictDel rest k with
        | .ok rest2 => .ok ((k0, v0) :: rest2)
        | .error e => .error e

/-- Python `iter(d)`: the keys in insertion order. -/
def dictIter (d : Dict) : List String :=
  d.map Prod.fst

/-- Python `d.pop(k)` with no default: the value and the shrunken dict, or
KeyError(k) when absent. -/
def dictPop (d : Dict) (k : String) : Except PyErr (String × Dict) :=
  match dictLookup d k with
  | some v =>
      match dictDel d k with
      | .ok d2 => .ok (v, d2)
      | .error e => .error e
  | none => .error (.keyError k)

/-! ## Store operations and mixin layering (mixins.py)

A store exposes the mapping entry points as state-passing functions; a
raised exception is an error result and by convention leaves the state
unchanged (the caller keeps the old state). -/

/-- The mapping entry points of a store over backend state σ. -/
structure StoreOps (σ : Type) where
  getitem : σ → String → Except PyErr String
  setitem : σ → String → String → Except PyErr σ
  delitem : σ → String → Except PyErr σ
  contains : σ → String → Except PyErr Bool
  iter : σ → List String
  pop : σ → String → Except PyErr (String × σ)
  clear : σ → Except PyErr σ

/-- The Python dict as a store. -/
def dictOps : StoreOps Dict where
  getitem := dictGet
  setitem := fun d k v => .ok (dictSet d k v)
  delitem := dictDel
  contains := fun d k => .ok (dictContains d k)
  iter := dictIter
  pop := dictPop
  clear := fun _ => .ok []

/-- The mixin classes of mixins.py that override mapping entry points, in
the order they appear in an MRO (head = first parent class). -/
inductive MixinTag where
  | readOnly
  | overWrites
  | filteredKeys (f : String → Bool)

/-- The message of OverWritesNotAllowedError (mixins.py lines 175-177). -/
def owMsg (k : String) : String :=
  "key " ++ k ++ " already exists and cannot be overwritten. " ++
    "If you really want to write to that key, delete it before writing"

/-- Resolution of __contains__ through the stack.  ReadOnlyMixin and
OverWritesNotAllowedMixin do not define __contains__; FilteredKeysMixin
defines it as self._key_filt(k) and super().__contains__(k), where Python
and short-circuits: when the filter is false, super is never called
(mixins.py line 135). -/
def resolvedContains (base : StoreOps σ) : List MixinTag → σ → String → Except PyErr Bool
  | [] => base.contains
  | .filteredKeys f :: rest => fun s k =>
      if f k then resolvedContains base rest s k else .ok false
  | .readOnly :: rest => resolvedContains base rest
  | .overWrites :: rest => resolvedContains base rest

/-- Resolution of __iter__ through the stack.  Only FilteredKeysMixin
defines it: filter(self._key_filt, super().__iter__()) (mixins.py line 126). -/
def resolvedIter (base : StoreOps σ) : List MixinTag → σ → List String
  | [] => base.iter
  | .filteredKeys f :: rest => fun s => (resolvedIter base rest s).filter f
  | .readOnly :: rest => resolvedIter base rest
  | .overWrites :: rest => resolvedIter base rest

/-- Resolution of __getitem__: none of the three mixins overrides it, so it
is the base method wherever it is called from, including through self. -/
def resolvedGet (base : StoreOps σ) (_stack : List MixinTag) : σ → String → Except PyErr String :=
  base.getitem

/-- Resolution of __setitem__ through the stack.  ReadOnlyMixin raises
WritesNotAllowed (mixins.py line 145).  OverWritesNotAllowedMixin checks
self.__contains__(k) - dynamic dispatch through the full stack, passed here
as selfContains - raising OverWritesNotAllowedError when true, and otherwise
delegates to super().__setitem__ (mixins.py lines 173-178).
FilteredKeysMixin does not override __setitem__. -/
def resolvedSetAux (base : StoreOps σ) (selfContains : σ → String → Except PyErr Bool) :
    List MixinTag → σ → String → String → Except PyErr σ
  | [] => base.setitem
  | .readOnly :: _ => fun _ _ _ => .error .writesNotAllowed
  | .overWrites :: rest => fun s k v =>
      match selfContains s k with
      | .error e => .error e
      | .ok true => .error (.overWritesNotAllowed (owMsg k))
      | .ok false => resolvedSetAux base selfContains rest s k v
  | .filteredKeys _ :: rest => resolvedSetAux base selfContains rest

/-- Resolution of __delitem__: only ReadOnlyMixin overrides it, raising
DeletionsNotAllowed (mixins.py line 148). -/
def resolvedDel (base : StoreOps σ) : List MixinTag → σ → String → Except PyErr σ
  | [] => base.delitem
  | .readOnly :: _ => fun _ _ => .error .deletionsNotAllowed
  | .overWrites :: rest => resolvedDel base rest
  | .filteredKeys _ :: rest => resolvedDel base rest

/-- Resolution of pop: only ReadOnlyMixin overrides it, raising
DeletionsNotAllowed (mixins.py line 154). -/
def resolvedPop (base : StoreOps σ) : List MixinTag → σ → String → Except PyErr (String × σ)
  | [] => base.pop
  | .readOnly :: _ => fun _ _ => .error .deletionsNotAllowed
  | .overWrites :: rest => resolvedPop base rest
  | .filteredKeys _ :: rest => resolvedPop base rest

/-- Resolution of clear: only ReadOnlyMixin overrides it, raising
DeletionsNotAllowed (mixins.py line 151). -/
def resolvedClear (base : StoreOps σ) : List MixinTag → σ → Except PyErr σ
  | [] => base.clear
  | .readOnly :: _ => fun _ => .error .deletionsNotAllowed
  | .overWrites :: rest => resolvedClear base rest
  | .filteredKeys _ :: rest => resolvedClear base rest

/-- The composed store for a mixin stack over a base store, with Python
method resolution: super-calls walk down the stack, and the self-call in
OverWritesNotAllowedMixin.__setitem__ dispatches to the full stack's
__contains__. -/
def compose (stack : List MixinTag) (base : StoreOps σ) : StoreOps σ where
  getitem := resolvedGet base stack
  setitem := resolvedSetAux base (resolvedContains base stack) stack
  delitem := resolvedDel base stack
  contains := resolvedContains base stack
  iter := resolvedIter base stack
  pop := resolvedPop base stack
  clear := resolvedClear base stack

/-- The state a caller holds after an operation: the new state on success,
the old state when the operation raised. -/
def stateAfter (r : Except PyErr σ) (s : σ) : σ :=
  match r with
  | .ok s2 => s2
  | .error _ => s

/-- C3: with the Read-Only Guard on top of any stack over any base store,
set raises WritesNotAllowed while delete, clear and pop raise
DeletionsNotAllowed (the operations are distinguished by error kind); the
state the caller holds and its key count are unchanged by each such call
(the error is raised before any base operation runs, for every base); and
getitem, contains and iter are exactly those of the same store without the
guard. -/
theorem C3_read_only_guard (base : StoreOps σ) (rest : List MixinTag) (s : σ) (k v : String) :
    (compose (MixinTag.readOnly :: rest) base).setitem s k v = .error .writesNotAllowed
  ∧ (compose (MixinTag.readOnly :: rest) base).delitem s k = .error .deletionsNotAllowed
  ∧ (compose (MixinTag.readOnly :: rest) base).clear s = .error .deletionsNotAllowed
  ∧ (compose (MixinTag.readOnly :: rest) base).pop s k = .error .deletionsNotAllowed
  ∧ stateAfter ((compose (MixinTag.readOnly :: rest) base).setitem s k v) s = s
  ∧ stateAfter ((compose (MixinTag.readOnly :: rest) base).delitem s k) s = s
  ∧ stateAfter ((compose (MixinTag.readOnly :: rest) base).clear s) s = s
  ∧ ((compose (MixinTag.readOnly :: rest) base).iter
        (stateAfter ((compose (MixinTag.readOnly :: rest) base).setitem s k v) s)).length
      = ((compose (MixinTag.readOnly :: rest) base).iter s).length
  ∧ (compose (MixinTag.readOnly :: rest) base).getitem s k = (compose rest base).getitem s k
  ∧ (compose (MixinTag.readOnly :: rest) base).contains s k = (compose rest base).contains s k
  ∧ (compose (MixinTag.readOnly :: rest) base).iter s = (compose rest base).iter s := by
  exact ⟨rfl, rfl, rfl, rfl, rfl, rfl, rfl, rfl, rfl, rfl, rfl⟩

/-- C4: with the Overwrite Guard over a dict backend, set on a key not
currently contained succeeds and performs exactly the backend write; set on
a contained key raises OverWritesNotAllowedError, the state the caller holds
is unchanged and the previously stored value for the key is unchanged. -/
theorem C4_overwrite_guard (d : Dict) (k v : String) :
    (dictContains d k = false →
      (compose [MixinTag.overWrites] dictOps).setitem d k v = .ok (dictSet d k v))
  ∧ (dictContains d k = true →
      (compose [MixinTag.overWrites] dictOps).setitem d k v
          = .error (.overWritesNotAllowed (owMsg k))
      ∧ stateAfter ((compose [MixinTag.overWrites] dictOps).setitem d k v) d = d
      ∧ dictLookup (stateAfter ((compose [MixinTag.overWrites] dictOps).setitem d k v) d) k
          = dictLookup d k) := by
  constructor
  · intro h
    simp [compose, resolvedSetAux, resolvedContains, dictOps, h]
  · intro h
    refine ⟨?_, ?_, ?_⟩ <;>
      simp [compose, resolvedSetAux, resolvedContains, dictOps, stateAfter, h]

/-- Witness for C4 at a concrete dict: a fresh write succeeds and a second
write to the same key is refused. -/
theorem C4_overwrite_guard_witness :
    (compose [MixinTag.overWrites] dictOps).setitem [] "foo" "bar" = .ok [("foo", "bar")]
  ∧ (compose [MixinTag.overWrites] dictOps).setitem [("foo", "bar")] "foo" "x"
      = .error (.overWritesNotAllowed (owMsg "foo")) :=
  ⟨(C4_overwrite_guard [] "foo" "bar").1 (by decide),
   ((C4_overwrite_guard [("foo", "bar")] "foo" "x").2 (by decide)).1⟩

/-- A key filter excluding the key "a", as a named predicate so that the
concrete composed stores below are closed terms. -/
def fEx : String → Bool := fun k => !(k == "a")

/-- C5 counterexample: in the composed store
OverWritesNotAllowedMixin before FilteredKeysMixin over a dict, with the
filter excluding "a" and the backend holding "a", the guard does NOT deny
the write: set("a", "2") succeeds and overwrites the stored value, because
the guard calls self.__contains__, which the filtering layer has already
made return false for "a".  The claim says the write is denied whenever the
backend holds the identifier, regardless of other composed layers. -/
theorem C5_counterexample :
    dictContains [("a", "1")] "a" = true
  ∧ (compose [MixinTag.overWrites, MixinTag.filteredKeys fEx] dictOps).setitem
        [("a", "1")] "a" "2"
      = .ok [("a", "2")] := by
  exact ⟨rfl, rfl⟩

/-- C5 amended: the Overwrite Guard's containment check is the composed
store's own __contains__ (self dispatch), not the backend's: with a
key-filtering layer composed below it over a dict backend, set(k, v) is
denied if and only if the filter admits k AND the backend holds k; when the
filter excludes k the write is allowed and reaches the backend even if the
backend currently holds k. -/
theorem C5_amended_guard_uses_composed_contains (f : String → Bool) (d : Dict) (k v : String) :
    (compose [MixinTag.overWrites, MixinTag.filteredKeys f] dictOps).setitem d k v
      = (if f k && dictContains d k
          then .error (.overWritesNotAllowed (owMsg k))
          else .ok (dictSet d k v)) := by
  by_cases hf : f k
  · by_cases hd : dictContains d k
    · simp [compose, resolvedSetAux, resolvedContains, dictOps, hf, hd]
    · simp [compose, resolvedSetAux, resolvedContains, dictOps, hf,
        Bool.eq_false_iff.mpr hd]
  · simp [compose, resolvedSetAux, resolvedContains, dictOps,
      Bool.eq_false_iff.mpr hf]

/-- C6: with a key-filtering layer on top of any stack over any base store,
iteration yields exactly the underlying iteration's keys that satisfy the
filter, in the underlying order; containment is the filter ANDed with the
underlying containment, short-circuiting on the filter: when the filter
rejects k the result is false without consulting the underlying store (the
equation holds for every base, including one whose containment would
succeed or raise), so contains k is false even if the unfiltered backend
contains k. -/
theorem C6_filtered_keys (f : String → Bool) (base : StoreOps σ) (rest : List MixinTag)
    (s : σ) (k : String) :
    (compose (MixinTag.filteredKeys f :: rest) base).iter s
        = ((compose rest base).iter s).filter f
  ∧ (compose (MixinTag.filteredKeys f :: rest) base).contains s k
        = (if f k then (compose rest base).contains s k else .ok false)
  ∧ (f k = false → (compose (MixinTag.filteredKeys f :: rest) base).contains s k = .ok false) := by
  refine ⟨rfl, rfl, fun hf => ?_⟩
  show (if f k then (compose rest base).contains s k else .ok false) = .ok false
  rw [hf]
  rfl

/-- Witness for C6: with the filter excluding "a" over a dict that does
contain "a", the composed containment check reports false. -/
theorem C6_filtered_keys_witness :
    (compose [MixinTag.filteredKeys fEx] dictOps).contains [("a", "1")] "a" = .ok false
  ∧ dictContains [("a", "1")] "a" = true :=
  ⟨(C6_filtered_keys fEx dictOps [] [("a", "1")] "a").2.2 (by decide), by decide⟩

/-- Whether an operation was allowed (returned) rather than denied (raised). -/
def isAllowed : Except PyErr α → Bool
  | .ok _ => true
  | .error _ => false

/-- C7: the two Access Guards compose independently of their relative
order: for every base store, state, key and value, each entry point's
allow/deny outcome under ReadOnlyMixin-then-OverWritesNotAllowedMixin
equals that under the opposite order, and equals the conjunction
(intersection) of the outcomes under each guard alone; the read entry
points are moreover identical across the two orders. -/
theorem C7_guard_order_independence (base : StoreOps σ) (s : σ) (k v : String) :
    (isAllowed ((compose [MixinTag.readOnly, MixinTag.overWrites] base).setitem s k v)
        = isAllowed ((compose [MixinTag.overWrites, MixinTag.readOnly] base).setitem s k v)
      ∧ isAllowed ((compose [MixinTag.readOnly, MixinTag.overWrites] base).setitem s k v)
        = (isAllowed ((compose [MixinTag.readOnly] base).setitem s k v)
            && isAllowed ((compose [MixinTag.overWrites] base).setitem s k v)))
  ∧ (isAllowed ((compose [MixinTag.readOnly, MixinTag.overWrites] base).delitem s k)
        = isAllowed ((compose [MixinTag.overWrites, MixinTag.readOnly] base).delitem s k)
      ∧ isAllowed ((compose [MixinTag.readOnly, MixinTag.overWrites] base).delitem s k)
        = (isAllowed ((compose [MixinTag.readOnly] base).delitem s k)
            && isAllowed ((compose [MixinTag.overWrites] base).delitem s k)))
  ∧ (isAllowed ((compose [MixinTag.readOnly, MixinTag.overWrites] base).clear s)
        = isAllowed ((compose [MixinTag.overWrites, MixinTag.readOnly] base).clear s)
      ∧ isAllowed ((compose [MixinTag.readOnly, MixinTag.overWrites] base).clear s)
        = (isAllowed ((compose [MixinTag.readOnly] base).clear s)
            && isAllowed ((compose [MixinTag.overWrites] base).clear s)))
  ∧ (isAllowed ((compose [MixinTag.readOnly, MixinTag.overWrites] base).pop s k)
        = isAllowed ((compose [MixinTag.overWrites, MixinTag.readOnly] base).pop s k)
      ∧ isAllowed ((compose [MixinTag.readOnly, MixinTag.overWrites] base).pop s k)
        = (isAllowed ((compose [MixinTag.readOnly] base).pop s k)
            && isAllowed ((compose [MixinTag.overWrites] base).pop s k)))
  ∧ ((compose [MixinTag.readOnly, MixinTag.overWrites] base).getitem s k
        = (compose [MixinTag.overWrites, MixinTag.readOnly] base).getitem s k
      ∧ isAllowed ((compose [MixinTag.readOnly, MixinTag.overWrites] base).getitem s k)
        = (isAllowed ((compose [MixinTag.readOnly] base).getitem s k)
            && isAllowed ((compose [MixinTag.overWrites] base).getitem s k)))
  ∧ ((compose [MixinTag.readOnly, MixinTag.overWrites] base).contains s k
        = (compose [MixinTag.overWrites, MixinTag.readOnly] base).contains s k
      ∧ isAllowed ((compose [MixinTag.readOnly, MixinTag.overWrites] base).contains s k)
        = (isAllowed ((compose [MixinTag.readOnly] base).contains s k)
            && isAllowed ((compose [MixinTag.overWrites] base).contains s k)))
  ∧ (compose [MixinTag.readOnly, MixinTag.overWrites] base).iter s
        = (compose [MixinTag.overWrites, MixinTag.readOnly] base).iter s := by
  refine ⟨⟨?_, ?_⟩, ⟨rfl, ?_⟩, ⟨rfl, ?_⟩, ⟨rfl, ?_⟩, ⟨rfl, ?_⟩, ⟨rfl, ?_⟩, rfl⟩
  · rcases hc : base.contains s k with e | b
    · simp [compose, resolvedSetAux, resolvedContains, isAllowed, hc]
    · cases b <;> simp [compose, resolvedSetAux, resolvedContains, isAllowed, hc]
  · simp [compose, resolvedSetAux, resolvedContains, isAllowed]
  · simp [compose, resolvedDel, isAllowed]
  · simp [compose, resolvedClear, isAllowed]
  · simp [compose, resolvedPop, isAllowed]
  · simp [compose, resolvedGet, isAllowed, Bool.and_self]
  · simp [compose, resolvedContains, isAllowed, Bool.and_self]

/-- Translation of GetBasedContainerMixin.__contains__ (mixins.py lines
184-196): try self.__getitem__(k); return True; except KeyError: return
False.  An exception not caught by except KeyError propagates.  Since no
mixin in this file overrides __getitem__, the self-dispatched get is passed
in directly. -/
def getBasedContains (g : String → Except PyErr V) (k : String) : Except PyErr Bool :=
  match g k with
  | .ok _ => .ok true
  | .error e => if caughtByExceptKeyError e then .ok false else .error e

/-- C8: the lookup-derived containment performs one get and translates its
outcome: a successful get yields true; a get failing with NotFound
(KeyError) yields false, the error being swallowed and converted to the
boolean rather than propagated; a get failing with any error not caught by
except KeyError propagates that error unchanged. -/
theorem C8_get_based_containment (g : String → Except PyErr V) (k : String) :
    (∀ v, g k = .ok v → getBasedContains g k = .ok true)
  ∧ (∀ m, g k = .error (.keyError m) → getBasedContains g k = .ok false)
  ∧ (∀ e, g k = .error e → caughtByExceptKeyError e = false → getBasedContains g k = .error e) := by
  refine ⟨fun v h => ?_, fun m h => ?_, fun e h hne => ?_⟩
  · simp [getBasedContains, h]
  · simp [getBasedContains, h, caughtByExceptKeyError]
  · simp [getBasedContains, h, hne]

/-- A concrete get: "a" is present, "b" is absent (KeyError), and "c"
fails with an error that except KeyError does not catch. -/
def gEx : String → Except PyErr String := fun k =>
  if k == "a" then .ok "v"
  else if k == "b" then .error (.keyError "b")
  else .error .writesNotAllowed

/-- Witness for C8 at the three concrete outcomes of gEx. -/
theorem C8_get_based_containment_witness :
    getBasedContains gEx "a" = .ok true
  ∧ getBasedContains gEx "b" = .ok false
  ∧ getBasedContains gEx "c" = .error .writesNotAllowed :=
  ⟨(C8_get_based_containment gEx "a").1 "v" rfl,
   (C8_get_based_containment gEx "b").2.1 "b" rfl,
   (C8_get_based_containment gEx "c").2.2 .writesNotAllowed rfl rfl⟩

/-- Translation of the validating _id_of_key installed by
mk_relative_path_store when with_key_validation is true (paths.py lines
72-80): compute the candidate identifier by the prefix concatenation of the
super method, ask the wrapped store whether it is valid, return it when so,
and otherwise raise KeyError("Key not valid: " + k). -/
def validated_id_of_key (isValidKey : String → Bool) (pfx k : String) : Except PyErr String :=
  let i := pfx ++ k
  if isValidKey i then .ok i
  else .error (.keyError ("Key not valid: " ++ k))

/-- A get through the validating key transform: the identifier is computed
and validated first; only on success is the backend get invoked with it. -/
def validatedGet (isValidKey : String → Bool) (pfx : String)
    (g : String → Except PyErr String) (k : String) : Except PyErr String :=
  match validated_id_of_key isValidKey pfx k with
  | .ok i => g i
  | .error e => .error e

/-- A validity predicate rejecting every identifier. -/
def rejectAll : String → Bool := fun _ => false

/-- C9 counterexample: the error raised for a rejected key is
KeyError("Key not valid: foo") - the same exception kind as NotFound (an
absent key on a dict get is also a KeyError, paths.py line 78 versus the
KeyError caught at mixins.py line 195), so a handler catching NotFound
catches it; composing the validating transform with the lookup-derived
containment collapses the invalid-key failure into the boolean false
exactly as NotFound.  The claim says the invalid-key condition is distinct
from NotFound and catchable separately, never collapsed. -/
theorem C9_counterexample :
    validated_id_of_key rejectAll "/root/" "foo"
        = .error (.keyError "Key not valid: foo")
  ∧ caughtByExceptKeyError (.keyError "Key not valid: foo") = true
  ∧ dictGet [] "foo" = .error (.keyError "foo")
  ∧ caughtByExceptKeyError (.keyError "foo") = true
  ∧ getBasedContains (validatedGet rejectAll "/root/" (dictGet [])) "foo" = .ok false := by
  exact ⟨rfl, rfl, rfl, rfl, rfl⟩

/-- C9 amended: when the candidate identifier computed from the key is
rejected by the validity predicate, the operation fails with
KeyError("Key not valid: " + k) carrying the offending interface key, and
the rejected identifier is never forwarded to the backend (the result is
this error for every backend get); the error is, however, a KeyError -
the same catchable condition as NotFound - not a condition catchable
separately from it. -/
theorem C9_amended_invalid_key (isValidKey : String → Bool) (pfx k : String)
    (g : String → Except PyErr String) (h : isValidKey (pfx ++ k) = false) :
    validated_id_of_key isValidKey pfx k = .error (.keyError ("Key not valid: " ++ k))
  ∧ validatedGet isValidKey pfx g k = .error (.keyError ("Key not valid: " ++ k))
  ∧ caughtByExceptKeyError (.keyError ("Key not valid: " ++ k)) = true := by
  refine ⟨?_, ?_, rfl⟩ <;> simp [validated_id_of_key, validatedGet, h]

/-- Witness for C9 amended at a concrete rejected key over a dict backend. -/
theorem C9_amended_invalid_key_witness :
    validatedGet rejectAll "/root/" (dictGet []) "foo"
      = .error (.keyError "Key not valid: foo") :=
  (C9_amended_invalid_key rejectAll "/root/" "foo" (dictGet []) rfl).2.1

/-- Python objects relevant to the string value wrap: text (str) and
binary (bytes) values. -/
inductive PyObj where
  | pyStr (s : String)
  | pyBytes (b : ByteArray)

/-- Translation of IdentityValsWrapMixin._data_of_obj (mixins.py lines
35-41): return v. -/
def IdentityValsWrapMixin_data_of_obj (v : PyObj) : PyObj := v

/-- Model of the Python builtin str applied with encoding="utf-8", which is
what encode_as_utf8 = partial(str, encoding="utf-8") does (mixins.py line
59): bytes-like data is decoded as UTF-8 text (UnicodeDecodeError on
invalid byte sequences); applying it to a value that is already a str
raises TypeError("decoding str is not supported"). -/
def encode_as_utf8 : PyObj → Except PyErr PyObj
  | .pyBytes b =>
      match String.fromUTF8? b with
      | some s => .ok (.pyStr s)
      | none => .error .unicodeDecodeError
  | .pyStr _ => .error (.typeError "decoding str is not supported")

/-- Translation of StringKvWrap._obj_of_data (mixins.py lines 62-64):
return encode_as_utf8(v). -/
def StringKvWrap_obj_of_data : PyObj → Except PyErr PyObj := encode_as_utf8

/-- StringKvWrap._data_of_obj is inherited unchanged from
IdentityValsWrapMixin through IdentityKvWrapMixin (mixins.py lines 52-64). -/
def StringKvWrap_data_of_obj : PyObj → PyObj := IdentityValsWrapMixin_data_of_obj

/-- C10: in StringKvWrap, _data_of_obj is the identity (writes are not
re-encoded); _obj_of_data decodes bytes data as UTF-8 text on read; applied
to data that is already a str it raises TypeError (it is not total); hence
the round trip _obj_of_data(_data_of_obj(o)) fails with that TypeError for
every str object o instead of returning o. -/
theorem C10_string_kv_wrap (o : PyObj) (s : String) (b : ByteArray) :
    StringKvWrap_data_of_obj o = o
  ∧ StringKvWrap_obj_of_data (.pyBytes b)
      = (String.fromUTF8? b).elim (.error .unicodeDecodeError) (fun t => .ok (.pyStr t))
  ∧ StringKvWrap_obj_of_data (.pyStr s) = .error (.typeError "decoding str is not supported")
  ∧ StringKvWrap_obj_of_data (StringKvWrap_data_of_obj (.pyStr s))
      = .error (.typeError "decoding str is not supported") := by
  refine ⟨rfl, ?_, rfl, rfl⟩
  cases h : String.fromUTF8? b <;>
    simp [StringKvWrap_obj_of_data, encode_as_utf8, h]

end Py2Store
